import Mathlib

set_option maxRecDepth 4000

/-!
Verification of the banking/loan engine in `lao.py`.

The source manipulates Python `Decimal` values under a global context with
`getcontext().prec = 4` (four *significant* digits, `ROUND_HALF_EVEN`).  We
model a `Decimal` by its exact rational value (`ℚ`) and apply `round4` —
rounding to four significant digits, ties to even — to the result of every
arithmetic operation, exactly as the Python context does for `+`, `-`, `*`,
`/`, unary minus and `**`.  `quantize(Decimal('0.01'))` signals
`InvalidOperation` when the quantized coefficient needs more than four digits;
we model that with `quantize2`.

Arithmetic on `ℚ` is spelled with the kernel-reducible primitives `mkRat` /
`Rat.divInt` (`qadd`, `qsub`, `qmul`, `qdiv`, `qpow` below compute the exact
rational operations), so that every concrete run of the embedded code can be
checked by `decide`.  Identifiers, timestamps and descriptions carry no
behavioural weight for the verified claims and are omitted from the record
types.
-/

namespace Lao

/-- Exact rational addition, via the reducible `mkRat`. -/
def qadd (x y : ℚ) : ℚ := mkRat (x.num * (y.den : ℤ) + y.num * (x.den : ℤ)) (x.den * y.den)

/-- Exact rational negation. -/
def qneg (x : ℚ) : ℚ := mkRat (-x.num) x.den

/-- Exact rational subtraction (`x + (-y)`, as the decimal spec defines it). -/
def qsub (x y : ℚ) : ℚ := qadd x (qneg y)

/-- Exact rational multiplication. -/
def qmul (x y : ℚ) : ℚ := mkRat (x.num * y.num) (x.den * y.den)

/-- Exact rational division (`0` when the divisor is `0`; every division in
the embedded code is guarded). -/
def qdiv (x y : ℚ) : ℚ := Rat.divInt (x.num * (y.den : ℤ)) ((x.den : ℤ) * y.num)

/-- Exact rational power by a natural exponent. -/
def qpow (x : ℚ) : ℕ → ℚ
  | 0 => 1
  | n + 1 => qmul (qpow x n) x

/-- An integer as a rational. -/
def intQ (n : ℤ) : ℚ := mkRat n 1

/-- Exact absolute value (`Decimal.__abs__` also context-rounds, but it is
only applied to already-rounded values here, where rounding is the
identity). -/
def qabs (x : ℚ) : ℚ := mkRat (x.num.natAbs : ℤ) x.den

/-- Strict comparison by cross-multiplication (the denominator of a `Rat` is
positive). -/
def qlt (x y : ℚ) : Bool := x.num * (y.den : ℤ) < y.num * (x.den : ℤ)

/-- Non-strict comparison by cross-multiplication. -/
def qle (x y : ℚ) : Bool := x.num * (y.den : ℤ) ≤ y.num * (x.den : ℤ)

/-- Floor of a rational as an integer (`Int.fdiv` is floor division; the
denominator of a `Rat` is positive). -/
def rfloor (x : ℚ) : ℤ := x.num.fdiv (x.den : ℤ)

/-- Round a rational to the nearest integer, ties to even (the
`ROUND_HALF_EVEN` mode of the default Python decimal context).  The
fractional part `x - f` is compared with `1/2` by integer arithmetic:
`x - f < 1/2 ↔ 2 * (x.num - f * x.den) < x.den`. -/
def rhe (x : ℚ) : ℤ :=
  let f := rfloor x
  let r := 2 * (x.num - f * (x.den : ℤ))
  if r < (x.den : ℤ) then f
  else if (x.den : ℤ) < r then f + 1
  else if f % 2 = 0 then f else f + 1

/-- Number of base-10 digits of `n` (fuelled, structurally recursive so the
kernel can evaluate it; fuel 400 covers every value arising here, where
coefficients stay below 10 ^ 7 and denominators below 10 ^ 200). -/
def digitsAux : ℕ → ℕ → ℕ
  | 0, _ => 0
  | f + 1, n => if n < 10 then 1 else digitsAux f (n / 10) + 1

/-- Number of base-10 digits of a natural number. -/
def digits10 (n : ℕ) : ℕ := digitsAux 400 n

/-- Smallest `k ≥ k0` with `a * 10 ^ k ≥ d` (fuelled), used for the adjusted
exponent of rationals below 1 in magnitude. -/
def negExpAux (a d : ℕ) : ℕ → ℕ → ℕ
  | 0, k => k
  | f + 1, k => if d ≤ a * 10 ^ k then k else negExpAux a d f (k + 1)

/-- Adjusted decimal exponent of a nonzero rational `x`: the unique `e` with
`10 ^ e ≤ |x| < 10 ^ (e + 1)`, computed from `|x| = x.num.natAbs / x.den`. -/
def adjExp (x : ℚ) : ℤ :=
  let a := x.num.natAbs
  if x.den ≤ a then (digits10 (a / x.den) : ℤ) - 1
  else -(negExpAux a x.den (digits10 x.den + 1) 1 : ℤ)

/-- Round a rational to 4 significant decimal digits, ties to even: the effect
of the Python decimal context `getcontext().prec = 4` on every arithmetic
result. -/
def round4 (x : ℚ) : ℚ :=
  if x.num = 0 then 0
  else
    let s : ℤ := adjExp x - 3
    if 0 ≤ s then qmul (intQ (rhe (qdiv x (intQ (10 ^ s.toNat))))) (intQ (10 ^ s.toNat))
    else mkRat (rhe (qmul x (intQ (10 ^ (-s).toNat)))) (10 ^ (-s).toNat)

/-- `Decimal.quantize(Decimal('0.01'))` under precision 4: rounds to two
fractional digits (half-even) and signals `InvalidOperation` when the
resulting coefficient has more than four digits. -/
def quantize2 (x : ℚ) : Option ℚ :=
  let c := rhe (qmul x (intQ 100))
  if 9999 < c.natAbs then none else some (mkRat c 100)

/-- Round an exact rational to whole cents, ties to even (used only to state
what the spec's exact-arithmetic amortization formula yields). -/
def roundCents (x : ℚ) : ℚ := mkRat (rhe (qmul x (intQ 100))) 100

/-- Python's unary minus on a `Decimal` also rounds its result to the context
precision (`Decimal.__neg__` calls `_fix`), so `-amount` in the source is
`round4 ∘ qneg`. -/
def neg4 (x : ℚ) : ℚ := round4 (qneg x)

/-! ## Error kinds

The source raises `InvalidAmountError`, `InsufficientFundsError` and
`ValueError` with distinguishing messages; the spec names the cases.  One
constructor per raise site / message.  `invalidOperation` and
`divisionByZero` stand for the decimal module's trapped signals. -/

inductive Err
  | invalidAmount
  | belowMinimum
  | exceedsDailyLimit
  | insufficientFunds
  | accountInactive
  | sameAccount
  | recipientInactive
  | notCompleted
  | loanInactive
  | paymentMismatch
  | nonZeroBalance
  | invalidOperation
  | divisionByZero
deriving DecidableEq

/-! ## Data model (`Customer`/`BankEntity` metadata, ids, timestamps and
descriptions carry no behavioural weight for the claims and are omitted). -/

/-- `transaction_type` values used by the source. -/
inductive TxnKind
  | deposit
  | withdrawal
  | transfer
  | reversal
deriving DecidableEq

/-- `Transaction.status` values used by the source (`"completed"`,
`"reversed"`). -/
inductive TxnStatus
  | completed
  | reversed
deriving DecidableEq

/-- A `Transaction` record: signed `amount`, `transaction_type`, `status`. -/
structure Transaction where
  amount : ℚ
  kind : TxnKind
  status : TxnStatus
deriving DecidableEq

/-- An `Account`: `balance`, ordered `transactions`, `is_active`. -/
structure Account where
  balance : ℚ
  transactions : List Transaction
  is_active : Bool
deriving DecidableEq

/-- `Account.__init__`: zero balance, no transactions, active. -/
def freshAccount : Account := ⟨0, [], true⟩

def MIN_DEPOSIT : ℚ := 50
def MIN_WITHDRAWAL : ℚ := 20
def MAX_DAILY_WITHDRAWAL : ℚ := 5000
def LOAN_INTEREST_RATE : ℚ := mkRat 2 25
def LOAN_TERM_YEARS : ℕ := 5

/-- `Account._validate_amount`: a non-positive amount raises
`InvalidAmountError` (the `isinstance` branches concern Python types and do
not arise for numeric inputs). -/
def validateAmount (amount : ℚ) : Except Err ℚ :=
  if qle amount 0 then .error .invalidAmount else .ok amount

/-- `Account.deposit` (the leading test is `_validate_amount`, inlined).
Every operation returns the post-state together with the result; a raise in
the source happens before any mutation here, so the returned account equals
the input on error. -/
def Account.deposit (acc : Account) (amount : ℚ) : Account × Except Err Transaction :=
  if qle amount 0 then (acc, .error .invalidAmount)
  else if qlt amount MIN_DEPOSIT then (acc, .error .belowMinimum)
  else
    let t : Transaction := ⟨amount, .deposit, .completed⟩
    ({ acc with balance := round4 (qadd acc.balance amount),
                transactions := acc.transactions ++ [t] }, .ok t)

/-- `Account.withdraw`: validation (`_validate_amount`, inlined),
`is_active`, minimum, daily maximum, funds — in source order; on success the
recorded amount is `-amount` (rounded by the context on negation) and the
balance drops by `amount` (rounded by the context on subtraction). -/
def Account.withdraw (acc : Account) (amount : ℚ) : Account × Except Err Transaction :=
  if qle amount 0 then (acc, .error .invalidAmount)
  else if acc.is_active = false then (acc, .error .accountInactive)
  else if qlt amount MIN_WITHDRAWAL then (acc, .error .belowMinimum)
  else if qlt MAX_DAILY_WITHDRAWAL amount then (acc, .error .exceedsDailyLimit)
  else if qlt acc.balance amount then (acc, .error .insufficientFunds)
  else
    let t : Transaction := ⟨neg4 amount, .withdrawal, .completed⟩
    ({ acc with balance := round4 (qsub acc.balance amount),
                transactions := acc.transactions ++ [t] }, .ok t)

instance {ε α : Type} [DecidableEq ε] [DecidableEq α] : DecidableEq (Except ε α) := fun a b =>
  match a, b with
  | .error e, .error f =>
    if h : e = f then isTrue (by subst h; rfl) else isFalse (by intro c; cases c; exact h rfl)
  | .ok x, .ok y =>
    if h : x = y then isTrue (by subst h; rfl) else isFalse (by intro c; cases c; exact h rfl)
  | .error _, .ok _ => isFalse (by intro c; cases c)
  | .ok _, .error _ => isFalse (by intro c; cases c)

/-- Result of `Account.transfer`: both post-states and the outcome.  A raise
inside the recipient's `deposit` leaves the sender's completed `withdraw` in
place, which this shape records faithfully. -/
structure TransferOutcome where
  sender : Account
  recipient : Account
  result : Except Err Transaction
deriving DecidableEq

/-- `Account.transfer`: validate, `self is recipient` check (`sameObject` is
the object-identity test, `false` for two distinct account objects),
recipient activity check, `self.withdraw`, `recipient.deposit`, then a third
bookkeeping `Transaction` of `-amount` appended to the sender WITHOUT any
balance adjustment. -/
def Account.transfer (sameObject : Bool) (sender recipient : Account) (amount : ℚ) :
    TransferOutcome :=
  if qle amount 0 then ⟨sender, recipient, .error .invalidAmount⟩
  else if sameObject then ⟨sender, recipient, .error .sameAccount⟩
  else if recipient.is_active = false then ⟨sender, recipient, .error .recipientInactive⟩
  else
    match sender.withdraw amount with
    | (s, .error e) => ⟨s, recipient, .error e⟩
    | (s, .ok _) =>
      match recipient.deposit amount with
      | (r, .error e) => ⟨s, r, .error e⟩
      | (r, .ok _) =>
        let t : Transaction := ⟨neg4 amount, .transfer, .completed⟩
        ⟨{ s with transactions := s.transactions ++ [t] }, r, .ok t⟩

/-- `Transaction.reverse` on a transaction of account `acc`: returns the
updated original transaction, the post-state of the account, and the result.
On success the account balance is `+= t.amount` (the source's sign slip)
while the appended reversal carries `-t.amount`. -/
def Transaction.reverse (t : Transaction) (acc : Account) :
    Transaction × Account × Except Err Transaction :=
  if t.status ≠ .completed then (t, acc, .error .notCompleted)
  else
    let rv : Transaction := ⟨neg4 t.amount, .reversal, .completed⟩
    ({ t with status := .reversed },
     { acc with balance := round4 (qadd acc.balance t.amount),
                transactions := acc.transactions ++ [rv] },
     .ok rv)

/-- `Bank.close_account`, restricted to its effect on the account itself
(the registry `del` only drops the id mapping): requires zero balance, then
clears `is_active`. -/
def close_account (acc : Account) : Account × Except Err Unit :=
  if acc.balance ≠ 0 then (acc, .error .nonZeroBalance)
  else ({ acc with is_active := false }, .ok ())

/-- Python's `sum(t.amount for t in transactions)` starts from the int `0`
and folds context-rounded additions left to right. -/
def ledgerSumL (l : List Transaction) : ℚ :=
  l.foldl (fun s t => round4 (qadd s t.amount)) 0

/-- The signed ledger sum of an account's transaction list. -/
def ledgerSum (acc : Account) : ℚ := ledgerSumL acc.transactions

/-- A deposit-or-withdraw request, for stating the ledger-sum invariant over
operation sequences. -/
inductive AccOp
  | dep (amount : ℚ)
  | wd (amount : ℚ)
deriving DecidableEq

/-- Run one operation against an account, keeping the post-state (failed
operations leave the account unchanged). -/
def applyOp (acc : Account) : AccOp → Account
  | .dep a => (acc.deposit a).1
  | .wd a => (acc.withdraw a).1

/-- Run a sequence of deposit/withdraw operations. -/
def runOps (acc : Account) (ops : List AccOp) : Account := ops.foldl applyOp acc

/-- An operation is benign for the ledger-sum invariant when a withdrawal
amount is exactly representable at the context precision (4 significant
digits), so that negating it in the transaction record loses nothing. -/
def wdExact : AccOp → Bool
  | .dep _ => true
  | .wd a => decide (neg4 a = qneg a)

/-! ## Loan engine -/

/-- A `LoanPayment` record (`amount`, `principal`, `interest`; id, loan
back-reference and date omitted).  Its constructor's consistency assertion is
checked inside `Loan.make_payment` below, at the point the source constructs
the record. -/
structure LoanPayment where
  amount : ℚ
  principal : ℚ
  interest : ℚ
deriving DecidableEq

/-- A `Loan`: original and remaining amounts, annual `interest_rate`,
`term_months`, activity flag and payment history. -/
structure Loan where
  original_amount : ℚ
  remaining_amount : ℚ
  interest_rate : ℚ
  term_months : ℕ
  is_active : Bool
  payments : List LoanPayment
deriving DecidableEq

/-- `Loan.__init__` (the constructor asserts `amount > 0`,
`interest_rate > 0` and `term_years > 0`; all loans considered in the
theorems satisfy them): `remaining_amount` starts at `amount`,
`term_months = term_years * 12`, active, no payments. -/
def Loan.new (amount rate : ℚ) (term_years : ℕ) : Loan :=
  ⟨amount, amount, rate, term_years * 12, true, []⟩

/-- `Loan.calculate_monthly_payment`:
`monthly_rate = interest_rate / 12`, `factor = (1 + monthly_rate) ** n`,
`payment = (original * monthly_rate * factor) / (factor - 1)`, then
`.quantize(Decimal('0.01'))` — every step context-rounded to 4 significant
digits.  A zero divisor signals `DivisionByZero`; a quantized coefficient
beyond 4 digits signals `InvalidOperation`. -/
def Loan.calculate_monthly_payment (l : Loan) : Except Err ℚ :=
  let monthly_rate := round4 (qdiv l.interest_rate (intQ 12))
  let factor := round4 (qpow (round4 (qadd (intQ 1) monthly_rate)) l.term_months)
  let denom := round4 (qsub factor (intQ 1))
  if denom = 0 then .error .divisionByZero
  else
    let payment := round4 (qdiv (round4 (qmul (round4 (qmul l.original_amount monthly_rate))
      factor)) denom)
    match quantize2 payment with
    | none => .error .invalidOperation
    | some p => .ok p

/-- `Loan.make_payment`: activity and positivity checks, overpayment capping
to `remaining_amount`, interest/principal split, the `LoanPayment`
constructor's reconstruction assertion, then
`remaining_amount -= principal` (context-rounded) and deactivation at
`remaining_amount <= 0`. -/
def Loan.make_payment (l : Loan) (amount : ℚ) : Loan × Except Err LoanPayment :=
  if l.is_active = false then (l, .error .loanInactive)
  else if qle amount 0 then (l, .error .invalidAmount)
  else
    let amount := if qlt l.remaining_amount amount then l.remaining_amount else amount
    let interest := round4 (qmul l.remaining_amount (round4 (qdiv l.interest_rate (intQ 12))))
    let principal := if qle amount interest then 0 else round4 (qsub amount interest)
    let interest := if qle amount interest then amount else interest
    if qle (mkRat 1 100) (qabs (round4 (qsub (round4 (qadd principal interest)) amount))) then
      (l, .error .paymentMismatch)
    else
      let pay : LoanPayment := ⟨amount, principal, interest⟩
      let remaining := round4 (qsub l.remaining_amount principal)
      ({ l with remaining_amount := remaining,
                payments := l.payments ++ [pay],
                is_active := if qle remaining 0 then false else l.is_active }, .ok pay)

/-- A row of the amortization schedule
(`{month, payment, principal, interest, balance}`). -/
structure SchedRow where
  month : ℕ
  payment : ℚ
  principal : ℚ
  interest : ℚ
  balance : ℚ
deriving DecidableEq

/-- The loop body of `generate_amortization_schedule`: months counted up to
`term`, balance and (mutable) monthly payment threaded through; the last
month forces `principal = balance` and recomputes the payment; the row
records `max(balance, 0)`; the loop breaks once the balance is `≤ 0`. -/
def schedGo (monthly_rate : ℚ) (term : ℕ) : ℕ → ℕ → ℚ → ℚ → List SchedRow
  | 0, _, _, _ => []
  | fuel + 1, month, mp, balance =>
    let interest := round4 (qmul balance monthly_rate)
    let principal := round4 (qsub mp interest)
    let principal := if month = term then balance else principal
    let mp := if month = term then round4 (qadd principal interest) else mp
    let balance := round4 (qsub balance principal)
    let row : SchedRow := ⟨month, mp, principal, interest, if qle balance 0 then 0 else balance⟩
    if qle balance 0 then [row]
    else row :: schedGo monthly_rate term fuel (month + 1) mp balance

/-- `Loan.generate_amortization_schedule`: fixed payment from
`calculate_monthly_payment` (whose decimal signals propagate), then the
per-month loop starting from the original amount. -/
def Loan.generate_amortization_schedule (l : Loan) : Except Err (List SchedRow) :=
  match l.calculate_monthly_payment with
  | .error e => .error e
  | .ok mp =>
    .ok (schedGo (round4 (qdiv l.interest_rate (intQ 12))) l.term_months l.term_months 1 mp
      l.original_amount)

/-! ## Theorems -/

/-- Folding one more transaction into the Python-style ledger sum. -/
theorem ledgerSumL_snoc (l : List Transaction) (t : Transaction) :
    ledgerSumL (l ++ [t]) = round4 (qadd (ledgerSumL l) t.amount) := by
  simp [ledgerSumL, List.foldl_append]

/-- C8: `Transaction.reverse` fails with `NotCompleted` exactly when the
status is not `completed`; on success the original's status becomes
`reversed`, so a second `reverse` of the returned original against the
post-state account fails with `NotCompleted` and returns that account
unchanged. -/
theorem C8_reverse_not_completed (t : Transaction) (acc : Account) :
    ((Transaction.reverse t acc).2.2 = .error .notCompleted ↔ t.status ≠ .completed) ∧
    (t.status = .completed →
      (Transaction.reverse t acc).1.status = .reversed ∧
      Transaction.reverse (Transaction.reverse t acc).1 (Transaction.reverse t acc).2.1 =
        ((Transaction.reverse t acc).1, (Transaction.reverse t acc).2.1,
          .error .notCompleted)) := by
  obtain ⟨a, k, s⟩ := t
  cases s <;> simp [Transaction.reverse]

/-- C8 witness: the characterization instantiated at a concrete completed
deposit transaction on a concrete account. -/
theorem C8_reverse_not_completed_witness :
    ((Transaction.reverse ⟨100, .deposit, .completed⟩ (freshAccount.deposit 100).1).2.2 =
        .error .notCompleted ↔
      (⟨100, .deposit, .completed⟩ : Transaction).status ≠ .completed) ∧
    ((⟨100, .deposit, .completed⟩ : Transaction).status = .completed →
      (Transaction.reverse ⟨100, .deposit, .completed⟩
            (freshAccount.deposit 100).1).1.status = .reversed ∧
      Transaction.reverse
          (Transaction.reverse ⟨100, .deposit, .completed⟩ (freshAccount.deposit 100).1).1
          (Transaction.reverse ⟨100, .deposit, .completed⟩ (freshAccount.deposit 100).1).2.1 =
        ((Transaction.reverse ⟨100, .deposit, .completed⟩ (freshAccount.deposit 100).1).1,
          (Transaction.reverse ⟨100, .deposit, .completed⟩ (freshAccount.deposit 100).1).2.1,
          .error .notCompleted)) :=
  C8_reverse_not_completed ⟨100, .deposit, .completed⟩ (freshAccount.deposit 100).1

/-- C3: reversing the completed deposit of 100.00 on an account whose balance
is 100.00 *raises* the balance to 200.00 (`balance += self.amount`) while the
appended reversal record carries −100.00; the claimed nullification
(balance back to `pre − t.amount = 0.00`) does not happen. -/
theorem C3_reverse_balance_bug :
    (Transaction.reverse ⟨100, .deposit, .completed⟩ (freshAccount.deposit 100).1).2.1.balance
        = 200 ∧
    (Transaction.reverse ⟨100, .deposit, .completed⟩
        (freshAccount.deposit 100).1).2.1.transactions =
      (freshAccount.deposit 100).1.transactions ++ [⟨-100, .reversal, .completed⟩] ∧
    (Transaction.reverse ⟨100, .deposit, .completed⟩ (freshAccount.deposit 100).1).1.status
        = .reversed ∧
    (Transaction.reverse ⟨100, .deposit, .completed⟩ (freshAccount.deposit 100).1).2.1.balance
      ≠ qsub (freshAccount.deposit 100).1.balance 100 := by
  decide

/-- C4: for the spec's own scenario loan (10000.00 at 8% over 5 years) the
code raises `decimal.InvalidOperation` — under context precision 4 the
payment value 194.8 cannot be quantized to two fractional digits — instead of
returning ≈ 202.76; the spec's exact amortization formula does round to
202.76. -/
theorem C4_monthly_payment_bug :
    (Loan.new 10000 (mkRat 2 25) 5).calculate_monthly_payment = .error .invalidOperation ∧
    roundCents (qdiv (qmul (qmul (intQ 10000) (qdiv (mkRat 2 25) (intQ 12)))
        (qpow (qadd (intQ 1) (qdiv (mkRat 2 25) (intQ 12))) 60))
      (qsub (qpow (qadd (intQ 1) (qdiv (mkRat 2 25) (intQ 12))) 60) (intQ 1))) =
      mkRat 20276 100 := by
  decide

/-- C5: a payment of 2000.00 against an active loan with remaining amount
1000.00 is capped to 1000.00 but is split 993.30 principal / 6.667 interest,
leaving `remaining_amount = 6.70` and the loan still active — not the claimed
`remaining_amount = 0` and `is_active = false`. -/
theorem C5_closing_payment_bug :
    ((Loan.new 1000 (mkRat 2 25) 5).make_payment 2000).2 =
      .ok ⟨1000, mkRat 9933 10, mkRat 6667 1000⟩ ∧
    ((Loan.new 1000 (mkRat 2 25) 5).make_payment 2000).1.remaining_amount = mkRat 67 10 ∧
    ((Loan.new 1000 (mkRat 2 25) 5).make_payment 2000).1.is_active = true := by
  decide

/-- C6: for a loan of 99999.00 at the default 8% rate, a 50.00 payment is all
interest (principal 0), and `remaining_amount -= 0` *rounds 99999 up to
100000* under context precision 4: `remaining_amount` strictly increases,
violating the claimed monotone non-increase. -/
theorem C6_remaining_increase_bug :
    ((Loan.new 99999 (mkRat 2 25) 5).make_payment 50).2 = .ok ⟨50, 0, 50⟩ ∧
    ((Loan.new 99999 (mkRat 2 25) 5).make_payment 50).1.remaining_amount = 100000 ∧
    qlt (Loan.new 99999 (mkRat 2 25) 5).remaining_amount
      ((Loan.new 99999 (mkRat 2 25) 5).make_payment 50).1.remaining_amount = true := by
  decide

/-- C7: the error cascade and the documented scenario hold (deposit 1000,
withdraw 200 → 800, withdraw 900 → `InsufficientFunds`), but the success
effect deviates from the claim: withdrawing 20.50 from balance 1234.00
succeeds and leaves balance 1214.00 — the context-precision-4 rounding of
1213.50 — not `balance − amount`. -/
theorem C7_withdraw_rounding_bug :
    ((freshAccount.deposit 1000).1.withdraw 200).1.balance = 800 ∧
    (((freshAccount.deposit 1000).1.withdraw 200).1.withdraw 900).2 =
      .error .insufficientFunds ∧
    (((freshAccount.deposit 1000).1.deposit 234).1.withdraw (mkRat 41 2)).2 =
      .ok ⟨mkRat (-41) 2, .withdrawal, .completed⟩ ∧
    (((freshAccount.deposit 1000).1.deposit 234).1.withdraw (mkRat 41 2)).1.balance = 1214 ∧
    (((freshAccount.deposit 1000).1.deposit 234).1.withdraw (mkRat 41 2)).1.balance ≠
      qsub ((freshAccount.deposit 1000).1.deposit 234).1.balance (mkRat 41 2) := by
  decide

/-- C9: `generate_amortization_schedule` on the spec's scenario loan
(10000.00 at 8% over 5 years — positive amount, rate and term) produces no
rows at all: the monthly-payment quantization raises
`decimal.InvalidOperation` and the schedule loop is never entered. -/
theorem C9_schedule_bug :
    (Loan.new 10000 (mkRat 2 25) 5).generate_amortization_schedule =
      .error .invalidOperation := by
  decide

/-- C10: `deposit` indeed never checks `is_active` — deposits of 99960 and 50
into a closed account succeed and append transactions — but the final clause
of the claim fails: on the inactive account with balance 100000.00 a further
deposit of 50.00 succeeds *without increasing the balance*, because
`balance + 50` rounds back to 100000 at context precision 4. -/
theorem C10_inactive_deposit_bug :
    ((close_account freshAccount).1.deposit 99960).2 = .ok ⟨99960, .deposit, .completed⟩ ∧
    (((close_account freshAccount).1.deposit 99960).1.deposit 50).1.is_active = false ∧
    (((close_account freshAccount).1.deposit 99960).1.deposit 50).1.balance = 100000 ∧
    ((((close_account freshAccount).1.deposit 99960).1.deposit 50).1.deposit 50).2 =
      .ok ⟨50, .deposit, .completed⟩ ∧
    ((((close_account freshAccount).1.deposit 99960).1.deposit 50).1.deposit 50).1.balance =
      (((close_account freshAccount).1.deposit 99960).1.deposit 50).1.balance ∧
    ((((close_account freshAccount).1.deposit 99960).1.deposit 50).1.deposit
        50).1.transactions.length =
      (((close_account freshAccount).1.deposit 99960).1.deposit 50).1.transactions.length
        + 1 := by
  decide

/-- C1 counterexample: after deposit 1000.00 and a successful transfer of
50.00 to a fresh account, the sender's balance is 950.00 but the signed sum
of its transaction amounts is 900.00 — the bookkeeping `transfer` record
double-counts the debit, so the claimed invariant fails at this observation
point. -/
theorem C1_ledger_counterexample :
    (Account.transfer false (freshAccount.deposit 1000).1 freshAccount 50).result =
      .ok ⟨-50, .transfer, .completed⟩ ∧
    (Account.transfer false (freshAccount.deposit 1000).1 freshAccount 50).sender.balance
      = 950 ∧
    ledgerSum (Account.transfer false (freshAccount.deposit 1000).1 freshAccount 50).sender
      = 900 ∧
    (Account.transfer false (freshAccount.deposit 1000).1 freshAccount 50).sender.balance ≠
      ledgerSum (Account.transfer false (freshAccount.deposit 1000).1 freshAccount 50).sender
    := by
  decide

/-- One deposit-or-withdraw step preserves `balance = ledger sum`, provided a
withdrawal amount negates exactly at context precision. -/
theorem applyOp_ledger (op : AccOp) (acc : Account) (hop : wdExact op = true)
    (h : acc.balance = ledgerSum acc) :
    (applyOp acc op).balance = ledgerSum (applyOp acc op) := by
  cases op with
  | dep a =>
    simp only [applyOp, Account.deposit, validateAmount]
    split_ifs with h1 h2
    · exact h
    · exact h
    · simp [ledgerSum, ledgerSumL_snoc, h]
  | wd a =>
    have ha : neg4 a = qneg a := of_decide_eq_true hop
    simp only [applyOp, Account.withdraw, validateAmount]
    split_ifs with h1 h2 h3 h4 h5
    · exact h
    · exact h
    · exact h
    · exact h
    · exact h
    · simp [ledgerSum, ledgerSumL_snoc, h, ha, qsub]

/-- A sequence of deposit-or-withdraw steps preserves `balance = ledger sum`
under the same side condition. -/
theorem runOps_ledger (ops : List AccOp) (hops : ops.all wdExact = true) (acc : Account)
    (h : acc.balance = ledgerSum acc) :
    (runOps acc ops).balance = ledgerSum (runOps acc ops) := by
  induction ops generalizing acc with
  | nil => exact h
  | cons op ops ih =>
    rw [List.all_cons, Bool.and_eq_true] at hops
    exact ih hops.2 (applyOp acc op) (applyOp_ledger op acc hops.1 h)

/-- C1 (amended): starting from a fresh account, after any sequence of
`deposit` and `withdraw` operations whose withdrawal amounts negate exactly
at the 4-significant-digit context precision, the balance equals the signed
sum of all transaction amounts.  (The original claim fails for `transfer` —
whose bookkeeping record is appended without a balance adjustment, see the
counterexample — and for `reverse`, whose balance adjustment has the opposite
sign of its ledger entry.) -/
theorem C1_ledger_invariant (ops : List AccOp) (hops : ops.all wdExact = true) :
    (runOps freshAccount ops).balance = ledgerSum (runOps freshAccount ops) :=
  runOps_ledger ops hops freshAccount rfl

/-- C1 witness: the amended invariant evaluated for the concrete sequence
deposit 1000.00, withdraw 200.00, deposit 75.50, withdraw 20.50. -/
theorem C1_ledger_invariant_witness :
    ([AccOp.dep 1000, AccOp.wd 200, AccOp.dep (mkRat 151 2),
        AccOp.wd (mkRat 41 2)].all wdExact = true) ∧
    (runOps freshAccount [AccOp.dep 1000, AccOp.wd 200, AccOp.dep (mkRat 151 2),
        AccOp.wd (mkRat 41 2)]).balance =
      ledgerSum (runOps freshAccount [AccOp.dep 1000, AccOp.wd 200, AccOp.dep (mkRat 151 2),
        AccOp.wd (mkRat 41 2)]) :=
  ⟨by decide, C1_ledger_invariant _ (by decide)⟩

/-- C2 counterexample: transferring 20.00 (≥ the 20.00 withdrawal minimum,
< the 50.00 deposit minimum) from an account holding 1000.00 to a fresh
active account fails — yet the sender has been debited to 980.00 with a
withdrawal record while the recipient is untouched: an outcome in which
exactly one of the two accounts changed. -/
theorem C2_transfer_counterexample :
    (Account.transfer false (freshAccount.deposit 1000).1 freshAccount 20).result =
      .error .belowMinimum ∧
    (Account.transfer false (freshAccount.deposit 1000).1 freshAccount 20).sender.balance
      = 980 ∧
    (Account.transfer false (freshAccount.deposit 1000).1 freshAccount 20).sender ≠
      (freshAccount.deposit 1000).1 ∧
    (Account.transfer false (freshAccount.deposit 1000).1 freshAccount 20).recipient =
      freshAccount := by
  decide

/-- C2 (amended): for distinct accounts, `transfer` either fully succeeds
(sender debited — context-rounded — with withdrawal and bookkeeping-transfer
records appended; recipient credited with a deposit record), or fails leaving
both accounts unchanged, or — exactly when every sender-side withdraw check
passes but the amount is below the 50.00 deposit minimum — fails leaving the
sender debited with its withdrawal recorded and the recipient unchanged. -/
theorem C2_transfer_trichotomy (s r : Account) (q : ℚ) :
    ((Account.transfer false s r q).result = .ok ⟨neg4 q, .transfer, .completed⟩ ∧
      (Account.transfer false s r q).sender =
        ⟨round4 (qsub s.balance q),
          (s.transactions ++ [⟨neg4 q, .withdrawal, .completed⟩]) ++
            [⟨neg4 q, .transfer, .completed⟩], s.is_active⟩ ∧
      (Account.transfer false s r q).recipient =
        ⟨round4 (qadd r.balance q), r.transactions ++ [⟨q, .deposit, .completed⟩],
          r.is_active⟩)
    ∨ ((∃ e, (Account.transfer false s r q).result = .error e) ∧
      (Account.transfer false s r q).sender = s ∧
      (Account.transfer false s r q).recipient = r)
    ∨ (qle q 0 = false ∧ r.is_active = true ∧ s.is_active = true ∧
      qlt q MIN_WITHDRAWAL = false ∧ qlt MAX_DAILY_WITHDRAWAL q = false ∧
      qlt s.balance q = false ∧ qlt q MIN_DEPOSIT = true ∧
      (Account.transfer false s r q).result = .error .belowMinimum ∧
      (Account.transfer false s r q).sender =
        ⟨round4 (qsub s.balance q),
          s.transactions ++ [⟨neg4 q, .withdrawal, .completed⟩], s.is_active⟩ ∧
      (Account.transfer false s r q).recipient = r) := by
  by_cases h0 : qle q 0 = true
  · refine Or.inr (Or.inl ⟨⟨.invalidAmount, ?_⟩, ?_, ?_⟩) <;>
      simp [Account.transfer, h0]
  by_cases hr : r.is_active = false
  · refine Or.inr (Or.inl ⟨⟨.recipientInactive, ?_⟩, ?_, ?_⟩) <;>
      simp [Account.transfer, h0, hr]
  by_cases hact : s.is_active = false
  · refine Or.inr (Or.inl ⟨⟨.accountInactive, ?_⟩, ?_, ?_⟩) <;>
      simp [Account.transfer, Account.withdraw, h0, hr, hact]
  by_cases hmin : qlt q MIN_WITHDRAWAL = true
  · refine Or.inr (Or.inl ⟨⟨.belowMinimum, ?_⟩, ?_, ?_⟩) <;>
      simp [Account.transfer, Account.withdraw, h0, hr, hact, hmin]
  by_cases hmax : qlt MAX_DAILY_WITHDRAWAL q = true
  · refine Or.inr (Or.inl ⟨⟨.exceedsDailyLimit, ?_⟩, ?_, ?_⟩) <;>
      simp [Account.transfer, Account.withdraw, h0, hr, hact, hmin, hmax]
  by_cases hbal : qlt s.balance q = true
  · refine Or.inr (Or.inl ⟨⟨.insufficientFunds, ?_⟩, ?_, ?_⟩) <;>
      simp [Account.transfer, Account.withdraw, h0, hr, hact, hmin, hmax, hbal]
  by_cases hdep : qlt q MIN_DEPOSIT = true
  · refine Or.inr (Or.inr ⟨?_, ?_, ?_, ?_, ?_, ?_, hdep, ?_, ?_, ?_⟩) <;>
      simp_all [Account.transfer, Account.withdraw, Account.deposit]
  · refine Or.inl ⟨?_, ?_, ?_⟩ <;>
      simp [Account.transfer, Account.withdraw, Account.deposit, h0, hr, hact, hmin, hmax,
        hbal, hdep]

end Lao
